import Mathlib

/-!
Verification of the mini_mem_profiler repository
(src/mini_mem_profiler/mini_profiler.py) against its natural-language
specification.

Shallow embedding conventions:
* Memory amounts and times are Python floats in the source; they are
  modelled as rationals.
* The two external collaborators are modelled as oracle inputs:
  - psutil point queries (rss, vms, percent) are passed in as values, or as
    an Except when a claim is about query failure;
  - the third-party memory_usage call of the function wrapper is modelled
    by its observable output: the list of sampled memory values together
    with the wrapped call return value.  With retval=True the wrapper
    source treats the combined result as a sequence whose last element is
    the return value of the wrapped call and whose remaining elements are
    the measurements, and that sequence shape is what memUsageResult
    builds.  The memory_usage poll loop always records at least the sample
    it takes immediately when the work starts, so a run in which the work
    finishes before the first interval elapses delivers a one-element
    sample list.
* Fallible Python operations become Option / Except: max of an empty
  sequence (ValueError), division by a zero length (ZeroDivisionError),
  arithmetic on None (TypeError) all become the error branch.
* Logging calls are observability side effects with no influence on any
  returned data, and are not modelled.
-/

/-- A value inhabiting the untyped result sequence of the profiled call:
either a sampled memory amount (a float) or the wrapped call return
value. -/
inductive PyVal (α : Type) where
  | float (q : ℚ)
  | ret (a : α)
deriving DecidableEq, Repr

/-- The combined result of the memory_usage call with retval=True as the
wrapper source consumes it: the sampled measurements followed by the
return value of the wrapped call. -/
def memUsageResult {α : Type} (samples : List ℚ) (rv : α) : List (PyVal α) :=
  samples.map PyVal.float ++ [PyVal.ret rv]

/-- Reading a float out of a PyVal; arithmetic or comparison on the
non-float member raises, modelled as none. -/
def pyFloat {α : Type} : PyVal α → Option ℚ
  | .float q => some q
  | .ret _ => none

/-- Python max over a sequence of floats: ValueError (none) on an empty
sequence, otherwise the greatest element. -/
def pyMax : List ℚ → Option ℚ
  | [] => none
  | x :: xs => some (xs.foldl max x)

/-- The max of a nonempty rational list, named for use in statements. -/
def listMax (x : ℚ) (xs : List ℚ) : ℚ := xs.foldl max x

/-- The min of a nonempty rational list, named for use in statements. -/
def listMin (x : ℚ) (xs : List ℚ) : ℚ := xs.foldl min x

/-- The profile_data dictionary built by the function wrapper
(keys initial_mem, peak_mem, avg_mem, mem_diff, duration, timestamps,
measurements). -/
structure ProfileData (α : Type) where
  initial_mem : ℚ
  peak_mem : ℚ
  avg_mem : ℚ
  mem_diff : ℚ
  duration : ℚ
  timestamps : PyVal α
  measurements : List (PyVal α)
deriving DecidableEq, Repr

/-- The body of wrapper inside profile_function.  Oracle inputs: the
initial psutil rss reading initial_mem (already divided to MB), the
measurement series the memory_usage call produced, the return value rv of
the wrapped call, and the two time.time readings.  The source unpacks
result[:-1], result[0], result[-1], then computes max, sum/len, the
difference against initial_mem and the duration, logs, and returns the
pair (return_value, profile_data).  A raised exception is none. -/
def wrapper {α : Type} (interval : ℚ) (initial_mem : ℚ) (samples : List ℚ)
    (rv : α) (start_time end_time : ℚ) : Option (PyVal α × ProfileData α) := do
  let result := memUsageResult samples rv
  let mem_measurements := result.dropLast
  let timestamps ← result.head?
  let return_value ← result.getLast?
  let floats ← mem_measurements.mapM pyFloat
  let max_mem ← pyMax floats
  let avg_mem ←
    if floats.length = 0 then none else some (floats.sum / (floats.length : ℚ))
  let mem_diff := max_mem - initial_mem
  let duration := end_time - start_time
  some (return_value,
    { initial_mem := initial_mem
      peak_mem := max_mem
      avg_mem := avg_mem
      mem_diff := mem_diff
      duration := duration
      timestamps := timestamps
      measurements := mem_measurements })

/-- The error taxonomy of the specification for bad configuration.  The
source never raises it; the type exists so that wrapper construction can
be stated as an Except. -/
inductive InvalidConfigError where
  | invalidInterval
deriving DecidableEq, Repr

/-- profile_function(interval): builds and returns the decorator with no
validation of interval whatsoever; interval is only forwarded to the
memory_usage call inside wrapper.  Construction itself never raises. -/
def profile_function (α : Type) (interval : ℚ) :
    Except InvalidConfigError
      (ℚ → List ℚ → α → ℚ → ℚ → Option (PyVal α × ProfileData α)) :=
  .ok (fun initial_mem samples rv start_time end_time =>
    wrapper interval initial_mem samples rv start_time end_time)

/-- Errors a Python block or dunder can raise in the modelled fragment. -/
inductive PyExc where
  | valueError (msg : String)
  | typeError (msg : String)
deriving DecidableEq, Repr

/-- The BlockProfiler instance state: the stored interval, the fields set
in init (start_mem = None, measurements = [], start_time = None) and
updated in enter. -/
structure BlockProfiler where
  interval : ℚ
  start_mem : Option ℚ
  measurements : List ℚ
  start_time : Option ℚ
deriving DecidableEq, Repr

/-- BlockProfiler.__init__(interval, logger): stores interval and
initialises start_mem, measurements, start_time. -/
def mkBlockProfiler (interval : ℚ) : BlockProfiler :=
  { interval := interval, start_mem := none, measurements := [], start_time := none }

/-- profile_block(interval): constructs and returns
BlockProfiler(interval, logger) with no validation of interval. -/
def profile_block (interval : ℚ) : Except InvalidConfigError BlockProfiler :=
  .ok (mkBlockProfiler interval)

/-- BlockProfiler.__enter__: records the psutil rss reading and the
time.time reading, returns self. -/
def BlockProfiler.enter (bp : BlockProfiler) (mem t : ℚ) : BlockProfiler :=
  { bp with start_mem := some mem, start_time := some t }

/-- BlockProfiler.__exit__: reads end_time and end_mem, computes duration
and mem_diff from the stored entry values, logs, and returns the summary
dictionary.  Arithmetic on a still-None start field is a TypeError. -/
def BlockProfiler.exit (bp : BlockProfiler) (end_mem end_time : ℚ) :
    Except PyExc (List (String × ℚ)) :=
  match bp.start_time, bp.start_mem with
  | some st, some sm =>
      .ok [("start_mem", sm), ("end_mem", end_mem),
           ("mem_diff", end_mem - sm), ("duration", end_time - st)]
  | _, _ => .error (.typeError "unsupported operand type(s) for -: NoneType")

/-- Python truthiness of a dictionary: nonempty is true. -/
def dictTruthy (d : List (String × ℚ)) : Bool := !d.isEmpty

/-- The with statement of Python around a BlockProfiler: run enter
(with its oracle readings), run the body on the handle, always run exit
(with its oracle readings).  When the body raised, a truthy exit return
value suppresses the exception and the with statement completes normally;
otherwise the body error propagates.  When the body returned normally the
exit return value is ignored.  The caller keeps the handle and, when no
exception escaped, the body value. -/
def withStmt {α : Type} (bp : BlockProfiler) (enter_mem enter_time : ℚ)
    (body : BlockProfiler → Except PyExc α) (exit_mem exit_time : ℚ) :
    Except PyExc (BlockProfiler × Option α) :=
  let h := bp.enter enter_mem enter_time
  match body h with
  | .ok a =>
      match h.exit exit_mem exit_time with
      | .ok _ => .ok (h, some a)
      | .error e2 => .error e2
  | .error e =>
      match h.exit exit_mem exit_time with
      | .ok d => if dictTruthy d then .ok (h, none) else .error e
      | .error e2 => .error e2

/-- The error taxonomy for the point snapshot: the psutil query for the
process memory info failed. -/
inductive OSQueryError where
  | accessDenied
  | unsupportedPlatform
  | noSuchProcess
deriving DecidableEq, Repr

/-- The snapshot dictionary with keys rss, vms, percent. -/
structure Snapshot where
  rss : ℚ
  vms : ℚ
  percent : ℚ
deriving DecidableEq, Repr

/-- The raw process memory info the OS query returns: resident set size
and virtual memory size in bytes. -/
structure MemInfo where
  rss : ℚ
  vms : ℚ
deriving DecidableEq, Repr

/-- memory_snapshot: one synchronous query of the current process
(memory_info plus memory_percent, modelled as a single oracle outcome),
no loop, no other effect; on success the dictionary holds rss and vms
converted to MB and the percent value, on failure the query error
propagates. -/
def memory_snapshot (query : Except OSQueryError (MemInfo × ℚ)) :
    Except OSQueryError Snapshot :=
  match query with
  | .error e => .error e
  | .ok (mi, pct) =>
      .ok { rss := mi.rss / 1024 / 1024, vms := mi.vms / 1024 / 1024, percent := pct }

/-! ## Helper lemmas (shared, not claim theorems) -/

lemma memUsageResult_dropLast {α : Type} (samples : List ℚ) (rv : α) :
    (memUsageResult samples rv).dropLast = samples.map PyVal.float := by
  simp [memUsageResult]

lemma memUsageResult_head {α : Type} (s : ℚ) (ss : List ℚ) (rv : α) :
    (memUsageResult (s :: ss) rv).head? = some (.float s) := by
  simp [memUsageResult]

lemma memUsageResult_getLast {α : Type} (samples : List ℚ) (rv : α) :
    (memUsageResult samples rv).getLast? = some (.ret rv) := by
  simp [memUsageResult]

lemma mapM_pyFloat_map {α : Type} (xs : List ℚ) :
    (xs.map (PyVal.float (α := α))).mapM pyFloat = some xs := by
  induction xs with
  | nil => rfl
  | cons x t ih =>
      rw [List.map_cons, List.mapM_cons, ih]
      rfl

/-- Full computation of the wrapper on a nonempty sample series. -/
lemma wrapper_cons {α : Type} (interval initial_mem s : ℚ) (ss : List ℚ)
    (rv : α) (t0 t1 : ℚ) :
    wrapper interval initial_mem (s :: ss) rv t0 t1 =
      some (.ret rv,
        { initial_mem := initial_mem
          peak_mem := listMax s ss
          avg_mem := (s :: ss).sum / ((s :: ss).length : ℚ)
          mem_diff := listMax s ss - initial_mem
          duration := t1 - t0
          timestamps := .float s
          measurements := (s :: ss).map PyVal.float }) := by
  simp only [wrapper, Option.bind_eq_bind, Option.pure_def, Option.bind_some,
    memUsageResult_dropLast, memUsageResult_head, memUsageResult_getLast,
    mapM_pyFloat_map, Option.some_bind]
  simp [pyMax, listMax]

lemma le_listMax_of_mem (s : ℚ) (ss : List ℚ) :
    ∀ x ∈ s :: ss, x ≤ listMax s ss := by
  induction ss generalizing s with
  | nil =>
      intro x hx
      simp only [List.mem_singleton] at hx
      simp [listMax, hx]
  | cons b t ih =>
      intro x hx
      simp only [listMax, List.foldl_cons] at *
      rcases List.mem_cons.mp hx with h | h
      · subst h
        exact le_trans (le_max_left x b) (ih (max x b) _ (List.mem_cons_self _ _))
      · rcases List.mem_cons.mp h with h2 | h2
        · subst h2
          exact le_trans (le_max_right s x) (ih (max s x) _ (List.mem_cons_self _ _))
        · exact ih (max s b) x (List.mem_cons_of_mem _ h2)

lemma listMin_le_of_mem (s : ℚ) (ss : List ℚ) :
    ∀ x ∈ s :: ss, listMin s ss ≤ x := by
  induction ss generalizing s with
  | nil =>
      intro x hx
      simp only [List.mem_singleton] at hx
      simp [listMin, hx]
  | cons b t ih =>
      intro x hx
      simp only [listMin, List.foldl_cons] at *
      rcases List.mem_cons.mp hx with h | h
      · subst h
        exact le_trans (ih (min x b) _ (List.mem_cons_self _ _)) (min_le_left x b)
      · rcases List.mem_cons.mp h with h2 | h2
        · subst h2
          exact le_trans (ih (min s x) _ (List.mem_cons_self _ _)) (min_le_right s x)
        · exact ih (min s b) x (List.mem_cons_of_mem _ h2)

lemma sum_le_length_mul {xs : List ℚ} {M : ℚ} (h : ∀ x ∈ xs, x ≤ M) :
    xs.sum ≤ (xs.length : ℚ) * M := by
  induction xs with
  | nil => simp
  | cons a t ih =>
      have ha : a ≤ M := h a (List.mem_cons_self _ _)
      have ht : t.sum ≤ (t.length : ℚ) * M :=
        ih (fun x hx => h x (List.mem_cons_of_mem _ hx))
      simp only [List.sum_cons, List.length_cons]
      push_cast
      linarith

lemma length_mul_le_sum {xs : List ℚ} {m : ℚ} (h : ∀ x ∈ xs, m ≤ x) :
    (xs.length : ℚ) * m ≤ xs.sum := by
  induction xs with
  | nil => simp
  | cons a t ih =>
      have ha : m ≤ a := h a (List.mem_cons_self _ _)
      have ht : (t.length : ℚ) * m ≤ t.sum :=
        ih (fun x hx => h x (List.mem_cons_of_mem _ hx))
      simp only [List.sum_cons, List.length_cons]
      push_cast
      linarith

lemma avg_le_listMax (s : ℚ) (ss : List ℚ) :
    (s :: ss).sum / ((s :: ss).length : ℚ) ≤ listMax s ss := by
  have hlen : (0 : ℚ) < ((s :: ss).length : ℚ) := by
    simp only [List.length_cons]
    push_cast
    positivity
  have hsum : (s :: ss).sum ≤ ((s :: ss).length : ℚ) * listMax s ss :=
    sum_le_length_mul (fun x hx => le_listMax_of_mem s ss x hx)
  rw [div_le_iff₀ hlen]
  linarith

lemma listMin_le_avg (s : ℚ) (ss : List ℚ) :
    listMin s ss ≤ (s :: ss).sum / ((s :: ss).length : ℚ) := by
  have hlen : (0 : ℚ) < ((s :: ss).length : ℚ) := by
    simp only [List.length_cons]
    push_cast
    positivity
  have hsum : ((s :: ss).length : ℚ) * listMin s ss ≤ (s :: ss).sum :=
    length_mul_le_sum (fun x hx => listMin_le_of_mem s ss x hx)
  rw [le_div_iff₀ hlen]
  linarith

/-! ## Claim theorems -/

/-- C1 (code_bug evaluation): a block that raises inside the
profile_block scope does NOT propagate its error.  exit returns the
four-entry summary dictionary, a truthy value, so the with statement
suppresses the ValueError and completes normally: the caller sees a
normal exit with no body value instead of the original error. -/
theorem block_exception_swallowed :
    withStmt (mkBlockProfiler (1 / 10)) 100 0
      (fun _ => (.error (.valueError "boom") : Except PyExc Nat)) 120 2 =
      .ok ({ interval := 1 / 10, start_mem := some 100, measurements := [],
             start_time := some 0 }, none) := by
  rfl

/-- C2 (counterexample): at interval = -1, both factories succeed at
construction time instead of failing with InvalidConfigError, and the
wrapped work is executed (its return value 42 comes back through the
wrapper). -/
theorem profile_factories_negative_interval_ok :
    (profile_function Nat (-1)).isOk = true ∧
    (profile_block (-1)).isOk = true ∧
    (wrapper (-1) 7 [5] (42 : Nat) 0 1).isSome = true := by
  refine ⟨rfl, rfl, ?_⟩
  rw [show ([5] : List ℚ) = 5 :: [] from rfl, wrapper_cons]
  rfl

/-- C2 (amended): neither profile_function nor profile_block validates
interval: for every interval, including every interval at most 0,
construction succeeds (no InvalidConfigError is raised anywhere in the
source) and the wrapped work is still invoked, its value returned. -/
theorem profile_factories_no_validation (i : ℚ) (hi : i ≤ 0) :
    (profile_function Nat i).isOk = true ∧
    (profile_block i).isOk = true ∧
    ∀ (im m : ℚ) (rv : Nat) (t0 t1 : ℚ),
      (wrapper i im [m] rv t0 t1).isSome = true := by
  refine ⟨rfl, rfl, fun im m rv t0 t1 => ?_⟩
  rw [show ([m] : List ℚ) = m :: [] from rfl, wrapper_cons]
  rfl

/-- C2 witness: the amended statement at interval 0 and concrete inputs. -/
theorem profile_factories_no_validation_witness :
    (profile_function Nat 0).isOk = true ∧
    (profile_block 0).isOk = true ∧
    (wrapper 0 7 [5] (42 : Nat) 0 1).isSome = true :=
  ⟨(profile_factories_no_validation 0 (by norm_num)).1,
   (profile_factories_no_validation 0 (by norm_num)).2.1,
   (profile_factories_no_validation 0 (by norm_num)).2.2 7 5 42 0 1⟩

/-- C3 (counterexample): the computed exit summary is not retrievable by
the caller.  Two runs of the same block differing only in the exit-time
readings (end memory 20 at time 5 versus end memory 99 at time 7) are
indistinguishable to the caller: the with statement discards the
dictionary exit returns, and the handle retains no end, delta or duration
field. -/
theorem block_exit_summary_discarded :
    withStmt (mkBlockProfiler 1) 10 0 (fun _ => .ok (42 : Nat)) 20 5 =
      withStmt (mkBlockProfiler 1) 10 0 (fun _ => .ok (42 : Nat)) 99 7 := by
  rfl

/-- C3 (amended): after the scope closes the caller-visible outcome is
exactly the handle carrying the entry readings (start_mem, start_time)
plus, on normal completion, the body value; it does not depend on the
exit readings at all, so of the summary only the entry half is
retrievable, on success and on failure alike. -/
theorem block_handle_after_exit {α : Type} (i sm st em et : ℚ)
    (body : BlockProfiler → Except PyExc α) :
    withStmt (mkBlockProfiler i) sm st body em et =
      .ok ({ interval := i, start_mem := some sm, measurements := [],
             start_time := some st },
        (body { interval := i, start_mem := some sm, measurements := [],
                start_time := some st }).toOption) := by
  cases hb : body { interval := i, start_mem := some sm, measurements := [],
                    start_time := some st } <;>
    simp [withStmt, BlockProfiler.enter, BlockProfiler.exit, mkBlockProfiler,
      dictTruthy, hb, Except.toOption]

/-- C4 (counterexample): with initial reading 10 MB and a sample series
whose only sample is 5 MB, the summary has peak_mem 5 below initial_mem
10 and mem_diff -5 below 0, refuting initial ≤ peak and delta ≥ 0. -/
theorem wrapper_peak_below_initial :
    wrapper 1 10 [5] (0 : Nat) 0 1 =
      some (.ret 0,
        { initial_mem := 10, peak_mem := 5, avg_mem := 5, mem_diff := -5,
          duration := 1, timestamps := .float 5,
          measurements := [.float 5] }) ∧
    ¬ ((10 : ℚ) ≤ 5) := by
  constructor
  · rw [show ([5] : List ℚ) = 5 :: [] from rfl, wrapper_cons]
    norm_num [listMax, List.sum_cons]
  · norm_num

/-- C4 (amended): the summary always satisfies
mem_diff = peak_mem - initial_mem; and whenever the initial psutil
reading is at most the first sample of the series, initial_mem ≤ peak_mem
and mem_diff ≥ 0 follow.  Unconditionally initial ≤ peak cannot hold
because initial_mem is a separate reading not part of the sampled
series. -/
theorem wrapper_mem_diff_spec {α : Type} (i im s : ℚ) (ss : List ℚ)
    (rv : α) (t0 t1 : ℚ) :
    (wrapper i im (s :: ss) rv t0 t1).map (fun r => r.2.mem_diff) =
      (wrapper i im (s :: ss) rv t0 t1).map
        (fun r => r.2.peak_mem - r.2.initial_mem) ∧
    (im ≤ s →
      (wrapper i im (s :: ss) rv t0 t1).map
        (fun r => decide (r.2.initial_mem ≤ r.2.peak_mem ∧ 0 ≤ r.2.mem_diff))
        = some true) := by
  have hs : s ≤ listMax s ss := le_listMax_of_mem s ss s (List.mem_cons_self _ _)
  constructor
  · simp only [wrapper_cons, Option.map_some']
  · intro him
    simp only [wrapper_cons, Option.map_some', Option.some.injEq,
      decide_eq_true_eq]
    exact ⟨by linarith, by linarith⟩

/-- C4 witness: the amended statement at initial reading 3 below the
single sample 5. -/
theorem wrapper_mem_diff_spec_witness :
    (wrapper 1 3 (5 :: []) (0 : Nat) 0 1).map
      (fun r => decide (r.2.initial_mem ≤ r.2.peak_mem ∧ 0 ≤ r.2.mem_diff))
      = some true :=
  (wrapper_mem_diff_spec 1 3 5 [] 0 0 1).2 (by norm_num)

/-- C5: when the work finishes before the first interval elapses the
series holds only the sample taken immediately at start; the wrapper
still succeeds (no empty max, no division by zero) and both peak_mem and
avg_mem fall back to that initial measurement. -/
theorem wrapper_single_sample {α : Type} (i im m : ℚ) (rv : α) (t0 t1 : ℚ) :
    wrapper i im [m] rv t0 t1 =
      some (.ret rv,
        { initial_mem := im, peak_mem := m, avg_mem := m, mem_diff := m - im,
          duration := t1 - t0, timestamps := .float m,
          measurements := [.float m] }) := by
  rw [show ([m] : List ℚ) = m :: [] from rfl, wrapper_cons]
  simp [listMax]

/-- C6: on any nonempty sample series the profiled call returns the pair
of the original return value and the complete summary dictionary with its
seven fields (initial, peak, average, delta, duration, timestamps,
measurements). -/
theorem wrapper_returns_pair {α : Type} (i im s : ℚ) (ss : List ℚ)
    (rv : α) (t0 t1 : ℚ) :
    wrapper i im (s :: ss) rv t0 t1 =
      some (.ret rv,
        { initial_mem := im
          peak_mem := listMax s ss
          avg_mem := (s :: ss).sum / ((s :: ss).length : ℚ)
          mem_diff := listMax s ss - im
          duration := t1 - t0
          timestamps := .float s
          measurements := (s :: ss).map PyVal.float }) :=
  wrapper_cons i im s ss rv t0 t1

/-- C7: on any nonempty sample series the summary average lies between
the minimum and the maximum of the samples, inclusive. -/
theorem wrapper_avg_between_min_max {α : Type} (i im s : ℚ) (ss : List ℚ)
    (rv : α) (t0 t1 : ℚ) :
    (wrapper i im (s :: ss) rv t0 t1).map
      (fun r => decide (listMin s ss ≤ r.2.avg_mem ∧ r.2.avg_mem ≤ listMax s ss))
      = some true := by
  simp only [wrapper_cons, Option.map_some', Option.some.injEq,
    decide_eq_true_eq]
  exact ⟨listMin_le_avg s ss, avg_le_listMax s ss⟩

/-- C8: memory_snapshot is the result of the single synchronous process
memory query and nothing else: a failed query propagates as the same
OSQueryError, and a successful query yields exactly the dictionary with
rss and vms converted to MB and the percent value. -/
theorem memory_snapshot_spec (e : OSQueryError) (mi : MemInfo) (pct : ℚ) :
    memory_snapshot (.error e) = .error e ∧
    memory_snapshot (.ok (mi, pct)) =
      .ok { rss := mi.rss / 1024 / 1024, vms := mi.vms / 1024 / 1024,
            percent := pct } :=
  ⟨rfl, rfl⟩

/-- C9: whenever the combined result holds at least one measurement
besides the return value, the timestamps entry of profile_data equals the
first entry of its measurements list, because the source unpacks
timestamps as result[0]. -/
theorem wrapper_timestamps_eq_first_measurement {α : Type} (i im s : ℚ)
    (ss : List ℚ) (rv : α) (t0 t1 : ℚ) :
    (wrapper i im (s :: ss) rv t0 t1).map (fun r => r.2.measurements.head?) =
      (wrapper i im (s :: ss) rv t0 t1).map (fun r => some r.2.timestamps) := by
  simp only [wrapper_cons, Option.map_some', List.map_cons, List.head?_cons]

/-- C10: the block profiler never polls: profile_block only constructs
the state, the interval is stored but the exit computation is identical
for any two intervals, the measurements list is still empty at exit, and
the exit summary is computed solely from the entry and exit point
readings. -/
theorem block_no_polling (i j sm st em et : ℚ) :
    profile_block i = .ok (mkBlockProfiler i) ∧
    (mkBlockProfiler i).interval = i ∧
    ((mkBlockProfiler i).enter sm st).measurements = [] ∧
    ((mkBlockProfiler i).enter sm st).exit em et =
      .ok [("start_mem", sm), ("end_mem", em), ("mem_diff", em - sm),
           ("duration", et - st)] ∧
    ((mkBlockProfiler i).enter sm st).exit em et =
      ((mkBlockProfiler j).enter sm st).exit em et :=
  ⟨rfl, rfl, rfl, rfl, rfl⟩
